import Mathlib

/- Shallow embedding of the Energy-share browser client (map.js,
   owner-dashboard.js, main.js, the api helper and the auth module),
   together with proofs about the embedded code. -/

namespace EnergyShare

/-- JSON-like JavaScript values as exchanged with the backend.  Numbers are
modelled as exact rationals (JS numbers are IEEE doubles; every numeric
literal in the repository is a short decimal, carried exactly here). -/
inductive JsValue : Type where
  | null : JsValue
  | bool (b : Bool) : JsValue
  | num (q : ℚ) : JsValue
  | str (s : String) : JsValue
  | arr (elems : List JsValue) : JsValue
  | obj (fields : List (String × JsValue)) : JsValue

/-- Property access `v.k`: `some` when the field is present on an object,
`none` when it is absent or the value is not an object (JS `undefined`). -/
def getField : JsValue → String → Option JsValue
  | .obj fields, k => fields.lookup k
  | _, _ => none

/-- JavaScript truthiness of a possibly-undefined value: `undefined`, `null`,
`false`, `0` and the empty string are falsy; every other value is truthy. -/
def truthy : Option JsValue → Bool
  | none => false
  | some .null => false
  | some (.bool b) => b
  | some (.num q) => if q = 0 then false else true
  | some (.str s) => if s = "" then false else true
  | some (.arr _) => true
  | some (.obj _) => true

/-- A charging-station record with the fields the client code reads.
Slot counts are the non-negative integers of the data model;
`address`, `rating` and `description` are optional (JS `undefined` = `none`). -/
structure Charger : Type where
  _id : String
  name : String
  address : Option String
  latitude : ℚ
  longitude : ℚ
  chargerType : String
  totalSlots : Nat
  availableSlots : Nat
  rating : Option ℚ
  description : Option String

/-- The three-way classification returned by `getChargerStatus`. -/
inductive ChargerStatus : Type where
  | available : ChargerStatus
  | limited : ChargerStatus
  | busy : ChargerStatus
deriving DecidableEq, Repr

/-- The `limited` threshold `Math.ceil(charger.totalSlots * 0.3)` of
map.js line 18, as a natural number: `(3*n + 9) / 10` is exactly
`⌈n * 0.3⌉` (see `limitedThreshold_eq_ceil`). -/
def limitedThreshold (totalSlots : Nat) : Nat := (3 * totalSlots + 9) / 10

/-- map.js `getChargerStatus` (lines 15-23). -/
def getChargerStatus (charger : Charger) : ChargerStatus :=
  if charger.availableSlots = 0 then .busy
  else if charger.availableSlots < limitedThreshold charger.totalSlots then .limited
  else .available

/-- The natural-number threshold used by the embedding is the exact
ceiling of `totalSlots * 0.3`. -/
theorem limitedThreshold_eq_ceil (n : Nat) :
    (limitedThreshold n : ℤ) = ⌈(n : ℚ) * (3 / 10)⌉ := by
  have h10 : 10 * limitedThreshold n ≤ 3 * n + 9 := by
    unfold limitedThreshold; omega
  have h3 : 3 * n ≤ 10 * limitedThreshold n := by
    unfold limitedThreshold; omega
  have hq10 : (10 : ℚ) * (limitedThreshold n : ℚ) ≤ 3 * (n : ℚ) + 9 := by
    exact_mod_cast h10
  have hq3 : 3 * (n : ℚ) ≤ 10 * (limitedThreshold n : ℚ) := by
    exact_mod_cast h3
  symm
  rw [Int.ceil_eq_iff]
  constructor
  · push_cast
    linarith
  · push_cast
    linarith

/-- C1: the status classification is a pure total function of the slot
counts: `busy` iff `availableSlots = 0`; `limited` iff
`0 < availableSlots < ⌈totalSlots * 0.3⌉`; `available` otherwise (i.e. iff
`availableSlots > 0` and at least the threshold); with `totalSlots = 0` the
threshold is `0`, so positive availability classifies as `available` and zero
availability as `busy`. -/
theorem getChargerStatus_classification (c : Charger) :
    (getChargerStatus c = .busy ↔ c.availableSlots = 0) ∧
    (getChargerStatus c = .limited ↔
      0 < c.availableSlots ∧ c.availableSlots < limitedThreshold c.totalSlots) ∧
    (getChargerStatus c = .available ↔
      0 < c.availableSlots ∧ limitedThreshold c.totalSlots ≤ c.availableSlots) ∧
    ((limitedThreshold c.totalSlots : ℤ) = ⌈(c.totalSlots : ℚ) * (3 / 10)⌉) ∧
    (c.totalSlots = 0 →
      (0 < c.availableSlots → getChargerStatus c = .available) ∧
      (c.availableSlots = 0 → getChargerStatus c = .busy)) := by
  refine ⟨?_, ?_, ?_, limitedThreshold_eq_ceil _, ?_⟩
  · unfold getChargerStatus
    split_ifs with h1 h2 <;> simp [h1]
  · unfold getChargerStatus
    split_ifs with h1 h2
    · simp [h1]
    · simpa using ⟨Nat.pos_of_ne_zero h1, h2⟩
    · constructor
      · intro h
        exact absurd h (by decide)
      · rintro ⟨hpos, hlt⟩
        exact absurd hlt h2
  · unfold getChargerStatus
    split_ifs with h1 h2
    · simp [h1]
    · constructor
      · intro h
        exact absurd h (by decide)
      · rintro ⟨hpos, hge⟩
        exact absurd h2 (Nat.not_lt.mpr hge)
    · simpa using ⟨Nat.pos_of_ne_zero h1, Nat.le_of_not_lt h2⟩
  · intro h0
    constructor
    · intro hpos
      have hthr : limitedThreshold c.totalSlots = 0 := by
        rw [h0]
        rfl
      unfold getChargerStatus
      split_ifs with h1 h2
      · exact absurd h1 (Nat.pos_iff_ne_zero.mp hpos)
      · rw [hthr] at h2
        exact absurd h2 (Nat.not_lt_zero _)
      · rfl
    · intro hz
      simp [getChargerStatus, hz]

/-- A degenerate station with `totalSlots = 0` and `availableSlots = 2`,
used as the witness input for C1. -/
def degenerateCharger : Charger :=
  { _id := "d0", name := "Degenerate", address := none, latitude := 0,
    longitude := 0, chargerType := "Level 2", totalSlots := 0,
    availableSlots := 2, rating := none, description := none }

/-- Witness for C1: the degenerate-case implication applied at a concrete
station with zero total slots and positive availability. -/
theorem getChargerStatus_classification_witness :
    getChargerStatus degenerateCharger = .available :=
  ((getChargerStatus_classification degenerateCharger).2.2.2.2 rfl).1 (by decide)

/-- map.js `escapeHtml` (lines 329-333): it assigns `div.textContent` and
reads back `div.innerHTML`.  The browser serializes a text node by escaping
`&`, `<` and `>`; the double quote is left as-is in text-node serialization
(it is only escaped inside attribute values, which this helper never
produces). -/
def escapeHtml (text : String) : String :=
  String.join (text.toList.map fun c =>
    if c = '&' then "&amp;"
    else if c = '<' then "&lt;"
    else if c = '>' then "&gt;"
    else String.singleton c)

/-- Fuel-driven worker for `replaceAll`; the fuel is the length of the
subject, which bounds the number of steps since each step consumes at least
one character. -/
def replaceAllGo (pat rep : List Char) : Nat → List Char → List Char
  | _, [] => []
  | 0, l => l
  | Nat.succ fuel, c :: rest =>
    if !pat.isEmpty && pat.isPrefixOf (c :: rest) then
      rep ++ replaceAllGo pat rep fuel ((c :: rest).drop pat.length)
    else
      c :: replaceAllGo pat rep fuel rest

/-- JS `s.replace(/pat/g, rep)` for a literal nonempty pattern: replace
every (left-to-right, non-overlapping) occurrence. -/
def replaceAll (s pat rep : String) : String :=
  String.mk (replaceAllGo pat.data rep.data s.data.length s.data)

/-- Does `needle` occur as a contiguous substring of the haystack list? -/
def containsSubGo (needle : List Char) : List Char → Bool
  | [] => needle.isEmpty
  | c :: rest => needle.isPrefixOf (c :: rest) || containsSubGo needle rest

/-- Does `needle` occur as a contiguous substring of `hay`? -/
def containsSub (needle hay : String) : Bool :=
  containsSubGo needle.data hay.data

/-- JS `a || b` for an optional string field: `undefined` and the empty
string are falsy, so both fall through to the default. -/
def jsOr (a : Option String) (b : String) : String :=
  match a with
  | some s => if s = "" then b else s
  | none => b

/-- The `statusClass` lookup table of `renderChargersList`
(map.js lines 343-347). -/
def statusBorderClass : ChargerStatus → String
  | .available => "border-success"
  | .limited => "border-warning"
  | .busy => "border-danger"

/-- The `statusText` lookup table of `renderChargersList`
(map.js lines 349-353). -/
def statusText : ChargerStatus → String
  | .available => "Available"
  | .limited => "Limited"
  | .busy => "Busy"

/-- JSON string escaping as performed by `JSON.stringify` (quote and
backslash; the station fields handled here contain no control characters). -/
def jsonEscapeChar (c : Char) : String :=
  if c = '"' then "\\\""
  else if c = '\\' then "\\\\"
  else String.singleton c

/-- JSON escaping of a whole string. -/
def jsonEscape (s : String) : String :=
  String.join (s.toList.map jsonEscapeChar)

/-- A JSON string literal. -/
def jsonStr (s : String) : String := "\"" ++ jsonEscape s ++ "\""

/-- Decimal rendering of a rational, matching how `JSON.stringify` prints
the finite-decimal numbers appearing in station records (`51.5161`, `8`,
`4.8`, ...).  Rationals that are not finite decimals (which do not occur in
the data handled here) are printed as a fraction. -/
def qToString (q : ℚ) : String :=
  let sign := if q < 0 then "-" else ""
  let a := |q|
  match (List.range 18).find? (fun k => 10 ^ k % a.den = 0) with
  | some k =>
    let scaled := (a * (10 : ℚ) ^ k).num.toNat
    if k = 0 then sign ++ toString scaled
    else
      let fpStr := toString (scaled % 10 ^ k)
      let pad := String.mk (List.replicate (k - fpStr.length) '0')
      sign ++ toString (scaled / 10 ^ k) ++ "." ++ pad ++ fpStr
  | none => sign ++ toString a.num ++ "/" ++ toString a.den

/-- `JSON.stringify(charger)`: the fields in the construction order of the
station records (the demo dataset's key order); optional fields that are
`undefined` are omitted, as `JSON.stringify` drops them. -/
def stringifyCharger (c : Charger) : String :=
  let fields :=
    [("_id", jsonStr c._id), ("name", jsonStr c.name)]
    ++ (match c.address with | some a => [("address", jsonStr a)] | none => [])
    ++ [("latitude", qToString c.latitude), ("longitude", qToString c.longitude),
        ("chargerType", jsonStr c.chargerType),
        ("totalSlots", toString c.totalSlots),
        ("availableSlots", toString c.availableSlots)]
    ++ (match c.rating with | some r => [("rating", qToString r)] | none => [])
    ++ (match c.description with | some d => [("description", jsonStr d)] | none => [])
  "\x7b" ++ String.intercalate "," (fields.map fun kv => jsonStr kv.1 ++ ":" ++ kv.2) ++ "\x7d"

/-- One sidebar station card of `renderChargersList` (map.js lines 355-368).
Presentational whitespace between tags in the template literal is elided;
every tag, class and interpolated field is kept. -/
def chargerCard (charger : Charger) : String :=
  let status := getChargerStatus charger
  let statusClass := statusBorderClass status
  "<div class=\"card mb-2 " ++ statusClass ++ " border-2 cursor-pointer\""
  ++ " onclick=\"showChargerDetail(" ++ replaceAll (stringifyCharger charger) "\"" "&quot;" ++ ")\">"
  ++ "<div class=\"card-body p-3\">"
  ++ "<h6 class=\"mb-1\">" ++ escapeHtml charger.name ++ "</h6>"
  ++ "<small class=\"text-muted d-block\">" ++ escapeHtml (jsOr charger.address "No address") ++ "</small>"
  ++ "<small class=\"text-muted d-block\">" ++ charger.chargerType ++ "</small>"
  ++ "<div class=\"mt-2 d-flex justify-content-between\">"
  ++ "<small><strong>" ++ toString charger.availableSlots ++ "/" ++ toString charger.totalSlots ++ "</strong> slots</small>"
  ++ "<span class=\"badge " ++ replaceAll statusClass "border-" "bg-" ++ "\">" ++ statusText status ++ "</span>"
  ++ "</div></div></div>"

/-- The placeholder `renderChargersList` assigns when the accumulated html
is empty (map.js line 371). -/
def noChargersPlaceholder : String := "<p class=\"text-muted\">No chargers available</p>"

/-- map.js `renderChargersList` (lines 336-372): accumulate a card per
station over `chargers.slice(0, 10)` and assign `html || placeholder` to the
container. -/
def renderChargersList (chargers : List Charger) : String :=
  let html := (chargers.take 10).foldl (fun h c => h ++ chargerCard c) ""
  if html = "" then noChargersPlaceholder else html

/-- Every station card is a nonempty string (it ends with closing tags). -/
theorem chargerCard_length_pos (c : Charger) : 0 < (chargerCard c).length := by
  simp only [chargerCard, String.length_append]
  have e1 : ("</div></div></div>" : String).length = 18 := rfl
  omega

/-- Appending cards never shortens the accumulated html. -/
theorem foldl_cards_length (l : List Charger) (s : String) :
    s.length ≤ (l.foldl (fun h c => h ++ chargerCard c) s).length := by
  induction l generalizing s with
  | nil => simp
  | cons c cs ih =>
    rw [List.foldl_cons]
    calc s.length ≤ (s ++ chargerCard c).length := by
          rw [String.length_append]; omega
      _ ≤ _ := ih _

/-- C10: the sidebar list renders exactly `min n 10` station cards, the
cards of the first ten stations in list order, and renders the
`No chargers available` placeholder exactly when the charger list is
empty. -/
theorem renderChargersList_spec (chargers : List Charger) :
    ((chargers.take 10).map chargerCard).length = min chargers.length 10 ∧
    (chargers = [] → renderChargersList chargers = noChargersPlaceholder) ∧
    (chargers ≠ [] →
      renderChargersList chargers = String.join ((chargers.take 10).map chargerCard)) := by
  refine ⟨?_, ?_, ?_⟩
  · rw [List.length_map, List.length_take, Nat.min_comm]
  · intro h
    subst h
    rfl
  · intro h
    obtain ⟨c, cs, rfl⟩ := List.exists_cons_of_ne_nil h
    have hten : (10 : Nat) = 9 + 1 := rfl
    have hne : ((c :: cs).take 10).foldl (fun h c => h ++ chargerCard c) "" ≠ "" := by
      intro h0
      have hl := congrArg String.length h0
      rw [hten, List.take_succ_cons, List.foldl_cons] at hl
      have hmono := foldl_cards_length (cs.take 9) ("" ++ chargerCard c)
      rw [String.length_append] at hmono
      have hc := chargerCard_length_pos c
      have h0l : ("" : String).length = 0 := rfl
      omega
    simp only [renderChargersList]
    rw [if_neg hne]
    simp only [String.join, List.foldl_map]

/-- Witness for C10: the empty list renders the placeholder, and a
one-element list renders exactly that station's card. -/
theorem renderChargersList_spec_witness :
    renderChargersList [] = noChargersPlaceholder ∧
    renderChargersList [degenerateCharger] =
      String.join (([degenerateCharger].take 10).map chargerCard) :=
  ⟨(renderChargersList_spec []).2.1 rfl,
   (renderChargersList_spec [degenerateCharger]).2.2 (by simp)⟩

/-- The client-side session state that `API.request` touches: the two
local-storage keys and a counter of `location.reload()` calls. -/
structure ClientState : Type where
  token : Option String
  user : Option String
  reloads : Nat
deriving DecidableEq, Repr

/-- The fixed request timeout installed by `API.request`:
`setTimeout(() => controller.abort(), 10000)`. -/
def TIMEOUT_MS : Nat := 10000

/-- What an in-flight `fetch` would do if left alone: fail at the network
level, or deliver a response with a status and a body (`none` when the body
is not valid JSON, so that `response.json()` rejects). -/
inductive FetchResolution : Type where
  | networkError (msg : String) : FetchResolution
  | response (status : Nat) (body : Option JsValue) : FetchResolution

/-- A pending `fetch` together with the instant (ms) at which it would
resolve; `none` means it never resolves. -/
structure PendingFetch : Type where
  resolveTime : Option Nat
  resolution : FetchResolution

/-- The transport outcome observed by `API.request`'s `try` block. -/
inductive FetchOutcome : Type where
  | timedOut : FetchOutcome
  | networkError (msg : String) : FetchOutcome
  | response (status : Nat) (body : Option JsValue) : FetchOutcome

/-- Racing a pending fetch against the abort timer: a fetch that has not
resolved within `TIMEOUT_MS` is aborted and surfaces as `timedOut`. -/
def runFetch (f : PendingFetch) : FetchOutcome :=
  match f.resolveTime with
  | none => .timedOut
  | some t =>
    if t < TIMEOUT_MS then
      match f.resolution with
      | .networkError msg => .networkError msg
      | .response status body => .response status body
    else .timedOut

/-- The `err.message` of an aborted request (the exact text is
browser-supplied; only its presence matters to the code). -/
def abortErrorMessage : String := "signal is aborted without reason"

/-- The `err.message` of a rejected `response.json()` (exact text
engine-supplied). -/
def jsonParseErrorMessage : String := "Unexpected token in JSON"

/-- The uniform failure value produced by `API.request`'s `catch` block:
`return { error: err.message, offline: true }`. -/
def failureShape (msg : String) : JsValue :=
  .obj [("error", .str msg), ("offline", .bool true)]

/-- `API.request` (api helper, lines 47-89) given the transport outcome of
its single `fetch`: on a 401 response it removes the `token` and `user`
local-storage keys and calls `location.reload()` (the reload counter goes up
by one), then parses the body; any thrown failure (network error, abort
timeout, body that is not JSON) is caught and mapped to
`failureShape err.message`.  The bearer token attached to the outgoing
headers does not affect the result and is not modelled further. -/
def request (st : ClientState) (outcome : FetchOutcome) : ClientState × JsValue :=
  match outcome with
  | .networkError msg => (st, failureShape msg)
  | .timedOut => (st, failureShape abortErrorMessage)
  | .response status body =>
    let st' :=
      if status = 401 then
        { st with token := none, user := none, reloads := st.reloads + 1 }
      else st
    match body with
    | none => (st', failureShape jsonParseErrorMessage)
    | some v => (st', v)

/-- The `DEMO_CHARGERS` fallback dataset (api helper, lines 5-39). -/
def demoChargersJson : JsValue :=
  .arr
    [.obj [("_id", .str "demo-1"), ("name", .str "Oxford Street Hub"),
           ("address", .str "123 Oxford Street, London W1D 2EH"),
           ("latitude", .num (515161 / 10000)), ("longitude", .num (-1426 / 10000)),
           ("chargerType", .str "DC Fast"), ("totalSlots", .num 8),
           ("availableSlots", .num 6), ("rating", .num (48 / 10))],
     .obj [("_id", .str "demo-2"), ("name", .str "Tower Bridge Plaza"),
           ("address", .str "Tower Bridge, London SE1 2UP"),
           ("latitude", .num (515055 / 10000)), ("longitude", .num (-754 / 10000)),
           ("chargerType", .str "Level 2"), ("totalSlots", .num 6),
           ("availableSlots", .num 2), ("rating", .num (45 / 10))],
     .obj [("_id", .str "demo-3"), ("name", .str "Green Park Station"),
           ("address", .str "Green Park, London SW1A 1AX"),
           ("latitude", .num (515036 / 10000)), ("longitude", .num (-1496 / 10000)),
           ("chargerType", .str "Level 2"), ("totalSlots", .num 4),
           ("availableSlots", .num 1), ("rating", .num (42 / 10))]]

/-- The `DEMO_LEADERBOARD` fallback dataset (api helper, lines 41-44). -/
def demoLeaderboardJson : JsValue :=
  .arr
    [.obj [("_id", .str "u1"), ("name", .str "John Smith"),
           ("greenScore", .num 175), ("totalChargingTime", .num (175 / 10))],
     .obj [("_id", .str "u2"), ("name", .str "Sarah Johnson"),
           ("greenScore", .num 150), ("totalChargingTime", .num 15)]]

/-- The fallback condition `result.error || result.offline` shared by
`API.getAllChargers` and `API.getLeaderboard`. -/
def carriesFailure (v : JsValue) : Bool :=
  truthy (getField v "error") || truthy (getField v "offline")

/-- `API.getAllChargers` (api helper, lines 103-113). -/
def getAllChargers (st : ClientState) (outcome : FetchOutcome) : ClientState × JsValue :=
  let r := request st outcome
  if carriesFailure r.2 then (r.1, demoChargersJson) else r

/-- `API.getLeaderboard` (api helper, lines 248-258). -/
def getLeaderboard (st : ClientState) (outcome : FetchOutcome) : ClientState × JsValue :=
  let r := request st outcome
  if carriesFailure r.2 then (r.1, demoLeaderboardJson) else r

/-- A client state with a live session, used as a concrete input. -/
def initialClientState : ClientState :=
  { token := some "tok", user := some "usr", reloads := 0 }

/-- A JSON error body a server would attach to a non-2xx response. -/
def notFoundBody : JsValue := .obj [("message", .str "Not found")]

/-- Counterexample to C3: a 404 response with the JSON body
`\x7bmessage: "Not found"\x7d` is returned to the caller as that parsed
body — it carries neither an `error` nor an `offline` field, so a non-2xx
HTTP status is not mapped to the uniform failure shape. -/
theorem request_404_returns_parsed_body :
    (request initialClientState (.response 404 (some notFoundBody))).2 = notFoundBody ∧
    (getField (request initialClientState (.response 404 (some notFoundBody))).2
      "offline").isNone = true ∧
    (getField (request initialClientState (.response 404 (some notFoundBody))).2
      "error").isNone = true :=
  ⟨rfl, rfl, rfl⟩

/-- C3 (amended): every thrown transport failure — a network error, an abort
after the timeout, or a response body that fails to parse as JSON — is caught
and returned as the uniform shape `\x7berror: err.message, offline: true\x7d`
(the message still reflects the underlying failure), and `API.request` never
rethrows; a response whose body parses as JSON is returned as the parsed
body regardless of its HTTP status. -/
theorem request_failure_mapping (st : ClientState) (msg : String) (status : Nat)
    (body : JsValue) :
    (request st (.networkError msg)).2 = failureShape msg ∧
    (request st .timedOut).2 = failureShape abortErrorMessage ∧
    (request st (.response status none)).2 = failureShape jsonParseErrorMessage ∧
    (request st (.response status (some body))).2 = body :=
  ⟨rfl, rfl, rfl, rfl⟩

/-- C4: whenever the transport result satisfies the fallback test
(`result.error || result.offline` truthy), `getAllChargers` returns exactly
the built-in `DEMO_CHARGERS` dataset and `getLeaderboard` exactly the
built-in `DEMO_LEADERBOARD` dataset, both unmodified; otherwise each
returns the transport result unchanged.  Every transport-level failure
(network error, timeout, unparseable body) satisfies the test, since the
failure shape carries `offline: true`. -/
theorem fallback_demo_datasets (st : ClientState) (outcome : FetchOutcome) :
    (carriesFailure (request st outcome).2 = true →
      (getAllChargers st outcome).2 = demoChargersJson ∧
      (getLeaderboard st outcome).2 = demoLeaderboardJson) ∧
    (carriesFailure (request st outcome).2 = false →
      (getAllChargers st outcome).2 = (request st outcome).2 ∧
      (getLeaderboard st outcome).2 = (request st outcome).2) ∧
    (∀ msg, carriesFailure (request st (.networkError msg)).2 = true) ∧
    carriesFailure (request st .timedOut).2 = true ∧
    (∀ status, carriesFailure (request st (.response status none)).2 = true) := by
  refine ⟨?_, ?_, ?_, rfl, fun status => rfl⟩
  · intro h
    constructor <;> simp [getAllChargers, getLeaderboard, h]
  · intro h
    constructor <;> simp [getAllChargers, getLeaderboard, h]
  · intro msg
    have hoff : truthy (getField (failureShape msg) "offline") = true := rfl
    simp [carriesFailure, request, hoff]

/-- Witness for C4: a concrete network failure yields the demo chargers,
and a concrete success payload is passed through unchanged. -/
theorem fallback_demo_datasets_witness :
    (getAllChargers initialClientState (.networkError "Failed to fetch")).2 =
      demoChargersJson ∧
    (getLeaderboard initialClientState (.response 200 (some (.arr [])))).2 = .arr [] :=
  ⟨((fallback_demo_datasets initialClientState (.networkError "Failed to fetch")).1
      (by rfl)).1,
   ((fallback_demo_datasets initialClientState (.response 200 (some (.arr [])))).2.1
      (by rfl)).2⟩

/-- C5: a 401 response makes `API.request` remove both the `token` and the
`user` local-storage keys and trigger exactly one `location.reload()`;
any other status, and any caught transport failure, leaves the session
state untouched. -/
theorem request_401_clears_session (st : ClientState) (body : Option JsValue) :
    (request st (.response 401 body)).1.token = none ∧
    (request st (.response 401 body)).1.user = none ∧
    (request st (.response 401 body)).1.reloads = st.reloads + 1 ∧
    (∀ status, status ≠ 401 → (request st (.response status body)).1 = st) ∧
    (∀ msg, (request st (.networkError msg)).1 = st) ∧
    (request st .timedOut).1 = st := by
  refine ⟨?_, ?_, ?_, ?_, fun msg => rfl, rfl⟩
  · cases body <;> rfl
  · cases body <;> rfl
  · cases body <;> rfl
  · intro status hne
    cases body <;> simp [request, hne]

/-- Witness for C5: a 200 response leaves the session untouched. -/
theorem request_401_clears_session_witness :
    (request initialClientState (.response 200 (some .null))).1 = initialClientState :=
  (request_401_clears_session initialClientState (some .null)).2.2.2.1 200 (by decide)

/-- A pending fetch that never resolves. -/
def neverResolves : PendingFetch :=
  { resolveTime := none, resolution := .response 200 (some .null) }

/-- C6: `API.request` installs a fixed 10-second (10000 ms) abort timer; a
fetch that has not resolved within the window is aborted, and the call
returns the caught failure shape `\x7berror, offline: true\x7d` instead of
hanging. -/
theorem request_timeout_uniform (st : ClientState) (f : PendingFetch)
    (h : ∀ t, f.resolveTime = some t → TIMEOUT_MS ≤ t) :
    (request st (runFetch f)).2 = failureShape abortErrorMessage ∧
    carriesFailure (failureShape abortErrorMessage) = true ∧
    TIMEOUT_MS = 10 * 1000 := by
  refine ⟨?_, rfl, rfl⟩
  have hrun : runFetch f = .timedOut := by
    cases hf : f.resolveTime with
    | none => simp [runFetch, hf]
    | some t =>
      have ht := h t hf
      simp [runFetch, hf, Nat.not_lt.mpr ht]
  rw [hrun]
  rfl

/-- Witness for C6: a fetch that never resolves yields the offline failure
shape. -/
theorem request_timeout_uniform_witness :
    (request initialClientState (runFetch neverResolves)).2 =
      failureShape abortErrorMessage :=
  (request_timeout_uniform initialClientState neverResolves
    (by intro t ht; simp [neverResolves] at ht)).1

/-- Local session state as `Auth.login` sees it: the two storage keys (we
record the value written; `localStorage` itself stores their string
serializations) and the pending navigation target of
`window.location.href` (`none` = no redirect). -/
structure AuthState : Type where
  token : Option JsValue
  user : Option JsValue
  href : Option String

/-- The strict comparison `result.user.role !== role` (negated): true only
when the role field is a string equal to the portal role. -/
def roleMatches (r : Option JsValue) (role : String) : Bool :=
  match r with
  | some (.str s) => s == role
  | _ => false

/-- `Auth.login` (auth module, lines 11-47), applied to the response value
of `API.login` (which never throws).  A missing/falsy `token` alerts and
returns; a missing `user` makes `result.user.role` throw, which the
enclosing `catch` turns into an alert; a role mismatch against the portal
alerts and returns; only on a match are the two keys stored and the
role-dependent redirect issued. -/
def login (st : AuthState) (resp : JsValue) (role : String) : AuthState :=
  if !truthy (getField resp "token") then st
  else
    match getField resp "user" with
    | none => st
    | some u =>
      if roleMatches (getField u "role") role then
        { token := getField resp "token", user := some u,
          href := some (if roleMatches (getField u "role") "owner"
                        then "/public/owner.html" else "/public/dashboard.html") }
      else st

/-- C7: when the login response carries a (truthy) token but the returned
user's role is not the portal's role, `Auth.login` writes neither storage
key and performs no redirect: the session state after the call equals the
state before it. -/
theorem login_role_mismatch (st : AuthState) (resp : JsValue) (role : String)
    (htok : truthy (getField resp "token") = true)
    (hrole : ∀ u, getField resp "user" = some u →
      roleMatches (getField u "role") role = false) :
    login st resp role = st := by
  cases hu : getField resp "user" with
  | none => simp [login, htok, hu]
  | some u => simp [login, htok, hu, hrole u hu]

/-- A successful owner login payload. -/
def ownerLoginResponse : JsValue :=
  .obj [("token", .str "jwt"),
        ("user", .obj [("name", .str "Olive"), ("role", .str "owner")]),
        ("message", .str "ok")]

/-- A session with nothing stored and no navigation yet. -/
def guestAuthState : AuthState := { token := none, user := none, href := none }

/-- Witness for C7: an owner credential presented to the user portal leaves
the session untouched. -/
theorem login_role_mismatch_witness :
    login guestAuthState ownerLoginResponse "user" = guestAuthState :=
  login_role_mismatch guestAuthState ownerLoginResponse "user" rfl
    (fun u hu => by
      have h2 : getField ownerLoginResponse "user" =
          some (.obj [("name", .str "Olive"), ("role", .str "owner")]) := rfl
      rw [h2] at hu
      rw [(Option.some.inj hu).symm]
      rfl)

/-- The apostrophe character, used inside generated html attribute text. -/
def apos : String := String.singleton (Char.ofNat 39)

/-- Raw template interpolation of a possibly-undefined string field:
JS prints `undefined` for an absent field. -/
def jsRaw (o : Option String) : String := o.getD "undefined"

/-- `b.status !== 'cancelled'` is false exactly when the status field is
the string `cancelled` (strict comparison: a missing or non-string status
is not equal to it). -/
def isCancelled (b : JsValue) : Bool :=
  match getField b "status" with
  | some (.str s) => s == "cancelled"
  | _ => false

/-- `Array.isArray(bookings) ? bookings.filter(b => b.status !== 'cancelled').length : 0`
(owner-dashboard.js lines 97 and 258-260): a non-array result — in
particular the transport failure value — contributes zero. -/
def nonCancelledCount (v : JsValue) : Nat :=
  match v with
  | .arr bs => (bs.filter fun b => !(isCancelled b)).length
  | _ => 0

/-- One station row of the owner table as built by `loadOwnerStations`
(owner-dashboard.js lines 99-114, the branch taken when the booking fetch
returned): note that `charger.name` and `charger.address` are interpolated
without any escaping.  Presentational whitespace between tags is elided. -/
def ownerStationRow (charger : Charger) (bookingCount : Nat) : String :=
  "<tr><td><strong>" ++ charger.name ++ "</strong><br><small class=\"text-muted\">"
  ++ jsRaw charger.address ++ "</small></td>"
  ++ "<td><span class=\"badge bg-secondary\">" ++ charger.chargerType ++ "</span></td>"
  ++ "<td>" ++ toString charger.availableSlots ++ "/" ++ toString charger.totalSlots ++ "</td>"
  ++ "<td><strong>" ++ toString bookingCount ++ "</strong></td>"
  ++ "<td><button class=\"btn btn-sm btn-warning\" onclick=\"openEditModal("
  ++ apos ++ charger._id ++ apos ++ ", " ++ apos ++ charger.name ++ apos ++ ", "
  ++ apos ++ replaceAll (jsOr charger.description "") apos "&apos;" ++ apos ++ ", "
  ++ toString charger.totalSlots ++ ")\">Edit</button>"
  ++ "<button class=\"btn btn-sm btn-danger\" onclick=\"deleteCharger("
  ++ apos ++ charger._id ++ apos ++ ")\">Delete</button></td></tr>"

/-- The catch-branch station row (owner-dashboard.js lines 117-132), whose
bookings cell is the muted `-` placeholder.  This branch is unreachable:
`API.getChargerBookings` never throws (the api helper catches every
transport failure and returns an error value instead). -/
def ownerStationRowOnThrow (charger : Charger) : String :=
  "<tr><td><strong>" ++ charger.name ++ "</strong><br><small class=\"text-muted\">"
  ++ jsRaw charger.address ++ "</small></td>"
  ++ "<td><span class=\"badge bg-secondary\">" ++ charger.chargerType ++ "</span></td>"
  ++ "<td>" ++ toString charger.availableSlots ++ "/" ++ toString charger.totalSlots ++ "</td>"
  ++ "<td><span class=\"text-muted\">-</span></td>"
  ++ "<td><button class=\"btn btn-sm btn-warning\" onclick=\"openEditModal("
  ++ apos ++ charger._id ++ apos ++ ", " ++ apos ++ charger.name ++ apos ++ ", "
  ++ apos ++ replaceAll (jsOr charger.description "") apos "&apos;" ++ apos ++ ", "
  ++ toString charger.totalSlots ++ ")\">Edit</button>"
  ++ "<button class=\"btn btn-sm btn-danger\" onclick=\"deleteCharger("
  ++ apos ++ charger._id ++ apos ++ ")\">Delete</button></td></tr>"

/-- The identifier `ownerChargers` read by `loadOwnerStations`
(owner-dashboard.js line 75).  The repository declares `ownerStations`
(line 12, assigned on line 70) but no script declares `ownerChargers`, so
evaluating `ownerChargers.length` throws a ReferenceError. -/
def ownerChargersRead : Except String (List Charger) :=
  .error "ReferenceError: ownerChargers is not defined"

/-- The empty-list message of the owner table (line 76). -/
def noStationsHtml : String :=
  "<p class=\"text-muted\">No stations yet. Add your first charging station above!</p>"

/-- The owner table header html (lines 78-91), whitespace elided. -/
def ownerTableOpen : String :=
  "<div class=\"table-responsive\"><table class=\"table table-hover mb-0\">"
  ++ "<thead class=\"table-light\"><tr><th>Station Name</th><th>Type</th>"
  ++ "<th>Slots</th><th>Bookings</th><th>Actions</th></tr></thead><tbody>"

/-- The owner table footer html (lines 136-140), whitespace elided. -/
def ownerTableClose : String := "</tbody></table></div>"

/-- The `try` block of `loadOwnerStations` after the charger fetch: the
html built for the `myChargersList` container.  Its first branch condition
evaluates the unbound `ownerChargers`, so the computation always raises. -/
def loadOwnerStationsTableHtml (stations : List Charger)
    (fetch : String → JsValue) : Except String String := do
  let ownerChargersVal ← ownerChargersRead
  if ownerChargersVal.length = 0 then
    pure noStationsHtml
  else
    pure (ownerTableOpen
      ++ String.join (stations.map fun c =>
          ownerStationRow c (nonCancelledCount (fetch c._id)))
      ++ ownerTableClose)

/-- The catch-branch message of `loadOwnerStations` (line 146). -/
def couldNotLoadHtml : String :=
  "<p class=\"text-warning\">Could not load chargers. Please refresh the page.</p>"

/-- `loadOwnerStations` (owner-dashboard.js lines 66-148): the html that
ends up assigned to `myChargersList`, with the surrounding `catch`. -/
def loadOwnerStations (stations : List Charger) (fetch : String → JsValue) : String :=
  match loadOwnerStationsTableHtml stations fetch with
  | .ok html => html
  | .error _ => couldNotLoadHtml

/-- `loadStatistics` (owner-dashboard.js lines 248-282): the three counters
written to the dashboard, as a function of the owner station list and the
per-station booking-fetch results.  `API.getChargerBookings` never throws;
a failed fetch surfaces as a non-array error value and contributes zero.
Returns (totalStations, totalBookings, totalSlotsInUse). -/
def loadStatistics (stations : List Charger) (fetch : String → JsValue) :
    Nat × Nat × Int :=
  let totalBookings :=
    stations.foldl (fun acc c => acc + nonCancelledCount (fetch c._id)) 0
  let totalSlotsInUse :=
    stations.foldl
      (fun sum c => sum + ((c.totalSlots : Int) - (c.availableSlots : Int))) (0 : Int)
  (stations.length, totalBookings, totalSlotsInUse)

/-- The bookings actually fetched for one station: the elements when the
fetch produced an array, nothing otherwise. -/
def fetchedBookings (v : JsValue) : List JsValue :=
  match v with
  | .arr bs => bs
  | _ => []

/-- A station whose user-supplied fields carry html-significant
characters. -/
def xssCharger : Charger :=
  { _id := "c-xss", name := "<script>alert(1)</script>",
    address := some "1 <b>&</b> 2", latitude := 0, longitude := 0,
    chargerType := "Level 2", totalSlots := 4, availableSlots := 2,
    rating := none, description := none }

set_option maxRecDepth 40000 in
/-- C2 fails on the owner dashboard: the station-table row interpolates
`charger.name` (and `charger.address`) with no escaping, so a name
containing `<script>...</script>` appears verbatim in the generated
fragment, never as entities — while `escapeHtml` (used by the map paths)
would have produced the entity-escaped form. -/
theorem ownerRow_injects_raw_markup :
    containsSub "<script>alert(1)</script>"
      (ownerStationRow xssCharger (nonCancelledCount (.arr []))) = true ∧
    containsSub "&lt;script&gt;"
      (ownerStationRow xssCharger (nonCancelledCount (.arr []))) = false ∧
    escapeHtml "<script>alert(1)</script>" =
      "&lt;script&gt;alert(1)&lt;/script&gt;" :=
  ⟨rfl, rfl, rfl⟩

/-- C8 fails before any row can render: for every owner station list and
every booking-fetch behaviour, `loadOwnerStations` throws on the unbound
identifier `ownerChargers` (line 75) and its `catch` replaces the whole
table with the error paragraph — no station row, and hence no per-station
placeholder cell, is ever rendered. -/
theorem loadOwnerStations_always_error (stations : List Charger)
    (fetch : String → JsValue) :
    loadOwnerStations stations fetch = couldNotLoadHtml ∧
    containsSub "<tr>" (loadOwnerStations stations fetch) = false :=
  ⟨rfl, rfl⟩

/-- Folding an accumulator through a list adds up the mapped values. -/
theorem foldl_add_map {α M : Type} [AddCommMonoid M] (f : α → M) (l : List α)
    (a : M) : l.foldl (fun acc c => acc + f c) a = a + (l.map f).sum := by
  induction l generalizing a with
  | nil => simp
  | cons c cs ih => simp [ih, add_assoc]

/-- Filtering a concatenation counts per block. -/
theorem length_filter_flatten (p : JsValue → Bool) (ls : List (List JsValue)) :
    ((ls.flatten).filter p).length = (ls.map fun bs => (bs.filter p).length).sum := by
  induction ls with
  | nil => simp
  | cons bs rest ih => simp [ih, Function.comp_def]

/-- Per-station count agrees with filtering that station's fetched
bookings. -/
theorem nonCancelledCount_eq (v : JsValue) :
    nonCancelledCount v = ((fetchedBookings v).filter fun b => !(isCancelled b)).length := by
  cases v <;> rfl

/-- C9: `loadStatistics` reports the length of the station list, the number
of fetched bookings whose status is not `cancelled` (stations whose fetch
failed contribute none), and the sum over all stations of
`totalSlots - availableSlots`. -/
theorem loadStatistics_spec (stations : List Charger) (fetch : String → JsValue) :
    (loadStatistics stations fetch).1 = stations.length ∧
    (loadStatistics stations fetch).2.1 =
      (((stations.map fun c => fetchedBookings (fetch c._id)).flatten).filter
        (fun b => !(isCancelled b))).length ∧
    (loadStatistics stations fetch).2.2 =
      (stations.map fun c => (c.totalSlots : Int) - (c.availableSlots : Int)).sum := by
  refine ⟨rfl, ?_, ?_⟩
  · show stations.foldl (fun acc c => acc + nonCancelledCount (fetch c._id)) 0 = _
    rw [foldl_add_map, length_filter_flatten, List.map_map]
    simp [Function.comp_def, nonCancelledCount_eq]
  · show stations.foldl
        (fun sum c => sum + ((c.totalSlots : Int) - (c.availableSlots : Int))) 0 = _
    rw [foldl_add_map]
    simp

end EnergyShare
